import Mathlib

/-! Around: post ingestion and search handlers.

A shallow embedding of `main.go` and `vision.go`.

The handlers talk to four outside parties: the Go standard library
(`strconv.ParseFloat`, `filepath.Ext`, `encoding/json`, `net/http`), the cloud
storage SDK, the vision SDK and the Elasticsearch client.  The calls that do
I/O are fields of an environment record `Env`; a handler is a function of the
environment and the request which returns the response written, the list of
calls it made to the four service functions of the repository (`saveToGCS`,
`annotate`, `saveToES`, `readFromES`), the search requests that `readFromES`
sent to Elasticsearch and, for `handlerPost`, the `Post` it held when it
returned.

Go strings are modelled by `String`; the characters the code inspects (`.` and
the path separator) are ASCII, so scanning characters and scanning bytes agree.
-/

namespace Around

/-! ## Values -/

/-- A Go floating point value: `num q` is the float obtained by rounding the
rational `q`, next to the two infinities and NaN.  The handlers never compute
with floats, they only move them around and compare against zero. -/
inductive GoFloat where
  | num (q : ℚ)
  | posInf
  | negInf
  | nan
  deriving DecidableEq

abbrev float64 := GoFloat
abbrev float32 := GoFloat

/-- Whether a float is neither an infinity nor NaN. -/
def GoFloat.isFinite : GoFloat → Bool
  | .num _ => true
  | _ => false

/-- A Go `error` value. -/
abbrev Error := String

/-- A Go slice: the nil slice is distinct from an empty, allocated one. -/
inductive Slice (α : Type) where
  | nil
  | mk (elems : List α)
  deriving DecidableEq

/-- Go `append(s, x)`: appending to the nil slice allocates. -/
def Slice.append {α : Type} : Slice α → α → Slice α
  | .nil, x => .mk [x]
  | .mk l, x => .mk (l ++ [x])

/-- The elements of a slice, in order. -/
def Slice.toList {α : Type} : Slice α → List α
  | .nil => []
  | .mk l => l

/-! ## Constants (main.go 21-44) -/

def POST_INDEX : String := "post"
def DISTANCE : String := "200km"
def ES_URL : String := "http://10.128.0.2:9200"
def BUCKET_NAME : String := "lusha-bucket"
def API_PREFIX : String := "/api/v1"

/-- The map literal `mediaTypes`, as its list of entries. -/
def mediaTypesEntries : List (String × String) :=
  [ (".jpeg", "image"),
    (".jpg", "image"),
    (".gif", "image"),
    (".png", "image"),
    (".mov", "video"),
    (".mp4", "video"),
    (".avi", "video"),
    (".flv", "video"),
    (".wmv", "video") ]

/-- The lookup `mediaTypes[suffix]` with its `ok` flag: `none` when the key is absent. -/
def mediaTypes (suffix : String) : Option String :=
  mediaTypesEntries.lookup suffix

/-! ## Data model (main.go 46-58) -/

structure Location where
  Lat : float64
  Lon : float64
  deriving DecidableEq

/-- The struct `Post`; the field `Type` is spelled `Type_`. -/
structure Post where
  User : String
  Message : String
  Location : Location
  Url : String
  Type_ : String
  Face : float32
  deriving DecidableEq

/-! ## Standard library: path/filepath -/

/-- The loop of `filepath.Ext`: `rev` holds `path[0..i]` reversed (so its head is
`path[i]`), `acc` holds `path[i+1..]`.  The path separator is `/`. -/
def extLoop : List Char → List Char → List Char
  | [], _ => []
  | c :: rev, acc =>
    if c = '/' then []
    else if c = '.' then c :: acc
    else extLoop rev (c :: acc)

/-- Go `filepath.Ext(path)`: scans backwards from the end of `path` until a path
separator, and returns `path[i:]` at the first dot met; empty otherwise. -/
def Ext (path : String) : String :=
  ⟨extLoop path.toList.reverse []⟩

/-! ## Standard library: strconv -/

/-- The two sentinel errors wrapped by a `*strconv.NumError`: `ErrSyntax` and `ErrRange`. -/
inductive NumError where
  | syntaxErr
  | rangeErr
  deriving DecidableEq

/-- The documented contract of `strconv.ParseFloat(s, 64)` that the handlers rely
on: a string that is not syntactically well-formed (the empty string is not)
gives the value 0 with `ErrSyntax`; a well-formed string too large in magnitude
gives an infinity with `ErrRange`. -/
def ParseFloatContract (pf : String → float64 × Option NumError) : Prop :=
  (pf "").2 = some .syntaxErr ∧
  (∀ s, (pf s).2 = some .syntaxErr → (pf s).1 = .num 0) ∧
  (∀ s, (pf s).2 = some .rangeErr → (pf s).1 = .posInf ∨ (pf s).1 = .negInf)

/-- The value of a decimal digit. -/
def digitVal (c : Char) : Option Nat :=
  if '0' ≤ c ∧ c ≤ '9' then some (c.toNat - '0'.toNat) else none

/-- Reads a maximal run of decimal digits on top of the value `v`: the new
value, the number of digits read, the rest of the input. -/
def readDigits : List Char → Nat → Nat → Nat × Nat × List Char
  | [], v, n => (v, n, [])
  | c :: cs, v, n =>
    match digitVal c with
    | some d => readDigits cs (10 * v + d) (n + 1)
    | none => (v, n, c :: cs)

/-- Reads an optional sign; `true` is minus. -/
def readSign : List Char → Bool × List Char
  | '+' :: cs => (false, cs)
  | '-' :: cs => (true, cs)
  | cs => (false, cs)

/-- Reads a whole decimal literal `[+-]digits[.digits][(e|E)[+-]digits]` with at
least one mantissa digit: sign, mantissa `m` and decimal exponent `e`, for the
number `± m * 10 ^ e`. -/
def readDecimal (s : List Char) : Option (Bool × Nat × Int) :=
  let (neg, s1) := readSign s
  let (a, n1, s2) := readDigits s1 0 0
  let (m, n2, s3) :=
    match s2 with
    | '.' :: t => readDigits t a 0
    | _ => (a, 0, s2)
  if n1 + n2 = 0 then none else
  match s3 with
  | [] => some (neg, m, - (n2 : Int))
  | c :: t =>
    if c = 'e' ∨ c = 'E' then
      let (eneg, s4) := readSign t
      match readDigits s4 0 0 with
      | (e, ne, []) =>
        if ne = 0 then none
        else some (neg, m, (if eneg then - (e : Int) else (e : Int)) - (n2 : Int))
      | _ => none
    else none

/-- Powers of ten by plain recursion. -/
def pow10 : Nat → Nat
  | 0 => 1
  | k + 1 => 10 * pow10 k

/-- The least magnitude that rounds beyond the largest float64: half way
between `(2^53 - 1) * 2^971` and `2^1024`, that is `(2^54 - 1) * 2^970`. -/
def float64Overflow : Nat := (2 ^ 54 - 1) <<< 970

/-- Whether `m * 10 ^ e` rounds beyond the largest float64. -/
def overflows (m : Nat) (e : Int) : Bool :=
  match e with
  | .ofNat k => decide (float64Overflow ≤ m * pow10 k)
  | .negSucc k => decide (float64Overflow * pow10 (k + 1) ≤ m)

/-- The rational `± m * 10 ^ e`. -/
def decimalValue (neg : Bool) (m : Nat) (e : Int) : ℚ :=
  let v : ℚ :=
    match e with
    | .ofNat k => ((m * pow10 k : Nat) : ℚ)
    | .negSucc k => Rat.divInt (m : Int) ((pow10 (k + 1) : Nat) : Int)
  if neg then -v else v

/-- A parser of plain decimal literals that follows the contract of
`strconv.ParseFloat(s, 64)`; it stands for the standard library in the concrete
environments below, and only there.  It is not the whole of `ParseFloat`: the
inputs `Inf`, `Infinity`, `NaN`, hexadecimal floats and digit separators, which
Go accepts, are syntax errors here, and a value in range is kept as the exact
rational where Go rounds it to a float64. -/
def decimalParseFloat (s : String) : float64 × Option NumError :=
  match readDecimal s.toList with
  | none => (.num 0, some .syntaxErr)
  | some (neg, m, e) =>
    if overflows m e then (if neg then .negInf else .posInf, some .rangeErr)
    else (.num (decimalValue neg m e), none)

/-! ## Standard library: encoding/json -/

/-- A JSON document; `json.Marshal` is modelled up to the byte rendering of the
document it encodes. -/
inductive JSON where
  | null
  | num (q : ℚ)
  | str (s : String)
  | arr (elems : List JSON)
  | obj (fields : List (String × JSON))

/-- Encoding of a float: `json.Marshal` fails with an `UnsupportedValueError` on
infinities and NaN. -/
def marshalFloat : GoFloat → Except Error JSON
  | .num q => .ok (.num q)
  | _ => .error "json: unsupported value"

/-- Encoding of a `Post` struct, following its field tags. -/
def marshalPost (p : Post) : Except Error JSON :=
  match marshalFloat p.Location.Lat, marshalFloat p.Location.Lon, marshalFloat p.Face with
  | .ok lat, .ok lon, .ok face =>
    .ok (.obj [ ("user", .str p.User),
                ("message", .str p.Message),
                ("location", .obj [("lat", lat), ("lon", lon)]),
                ("url", .str p.Url),
                ("type", .str p.Type_),
                ("face", face) ])
  | .error e, _, _ => .error e
  | _, .error e, _ => .error e
  | _, _, .error e => .error e

/-- Encoding of a list of posts, element by element, stopping at the first error. -/
def marshalPosts : List Post → Except Error (List JSON)
  | [] => .ok []
  | p :: ps =>
    match marshalPost p with
    | .error e => .error e
    | .ok j =>
      match marshalPosts ps with
      | .error e => .error e
      | .ok js => .ok (j :: js)

/-- Go `json.Marshal(posts)` for `posts []Post`: a nil slice encodes as the JSON
value `null`, any other slice as a JSON array. -/
def Marshal (posts : Slice Post) : JSON × Option Error :=
  match posts with
  | .nil => (.null, none)
  | .mk l =>
    match marshalPosts l with
    | .ok js => (.arr js, none)
    | .error e => (.null, some e)

/-! ## Standard library: net/http -/

/-- What the handler wrote to the response body. -/
inductive Body where
  | empty
  | text (s : String)
  | json (j : JSON)

/-- The state of an `http.ResponseWriter`: the header map, the status code sent
(200 when `WriteHeader` is never called) and the body. -/
structure ResponseWriter where
  header : List (String × String)
  status : Nat
  body : Body

def StatusOK : Nat := 200
def StatusBadRequest : Nat := 400
def StatusInternalServerError : Nat := 500

/-- A fresh response writer. -/
def ResponseWriter.new : ResponseWriter :=
  { header := [], status := StatusOK, body := .empty }

/-- Go `w.Header().Set(key, value)`. -/
def ResponseWriter.Set (w : ResponseWriter) (key value : String) : ResponseWriter :=
  { w with header := (w.header.filter (fun kv => kv.1 ≠ key)) ++ [(key, value)] }

/-- Go `http.Error(w, error, code)`: plain-text content type, status `code`, the
message followed by a newline. -/
def http_Error (w : ResponseWriter) (error : String) (code : Nat) : ResponseWriter :=
  let w := w.Set "Content-Type" "text/plain; charset=utf-8"
  let w := w.Set "X-Content-Type-Options" "nosniff"
  { w with status := code, body := .text (error ++ "\n") }

/-- Go `w.Write(js)` as the first write: status 200 stays, the body is `js`. -/
def ResponseWriter.Write (w : ResponseWriter) (js : JSON) : ResponseWriter :=
  { w with body := .json js }

/-- Go `url.Values` restricted to what `Get` sees: the pairs of key and value, in order. -/
abbrev Values := List (String × String)

/-- Go `Values.Get(key)`: the first value of the key, the empty string when absent. -/
def Values.Get (v : Values) (key : String) : String :=
  (v.lookup key).getD ""

/-- The content of an uploaded file. -/
abbrev File := String

/-- Go `multipart.FileHeader`. -/
structure FileHeader where
  Filename : String

/-- The parts of an `*http.Request` that the handlers read.  `username` is the
outcome of the chain `r.Context().Value("user").(*jwt.Token).Claims.(jwt.MapClaims)["username"].(string)`:
`none` when one of the type assertions panics.  `Form` backs `r.FormValue`,
`Query` backs `r.URL.Query()`, `FormFile key` is `none` when `r.FormFile(key)`
returns an error. -/
structure Request where
  Method : String
  username : Option String
  Form : Values
  Query : Values
  FormFile : String → Option (File × FileHeader)

/-- Go `r.FormValue(key)`. -/
def Request.FormValue (r : Request) (key : String) : String :=
  Values.Get r.Form key

/-! ## The outside services -/

/-- Go `storage.ObjectAttrs`: the attribute the code reads. -/
structure ObjectAttrs where
  MediaLink : String

/-- The cloud storage SDK as `saveToGCS` uses it.  An `Option Error` answer is
the `error` result of the call (`none` is Go `nil`); bucket and object names
are the first arguments. -/
structure StorageSDK where
  NewClient : Option Error
  BucketAttrs : String → Option Error
  Copy : String → String → File → Option Error
  Close : String → String → Option Error
  ACLSet : String → String → Option Error
  ObjectAttrs : String → String → Except Error ObjectAttrs

/-- One element of the list that `DetectFaces` returns. -/
structure FaceDetection where
  DetectionConfidence : float32

/-- The vision SDK as `annotate` uses it: client construction, and
`DetectFaces` on an image URI with a maximum number of results. -/
structure VisionSDK where
  NewImageAnnotatorClient : Option Error
  DetectFaces : String → Nat → Except Error (List FaceDetection)

/-- Go `elastic.GeoDistanceQuery`: the fields the code sets. -/
structure GeoDistanceQuery where
  name : String
  distance : String
  lat : float64
  lon : float64
  deriving DecidableEq

/-- Go `elastic.NewGeoDistanceQuery(name)`. -/
def NewGeoDistanceQuery (name : String) : GeoDistanceQuery :=
  { name := name, distance := "", lat := .num 0, lon := .num 0 }

def GeoDistanceQuery.Distance (q : GeoDistanceQuery) (distance : String) : GeoDistanceQuery :=
  { q with distance := distance }

def GeoDistanceQuery.Lat (q : GeoDistanceQuery) (lat : float64) : GeoDistanceQuery :=
  { q with lat := lat }

def GeoDistanceQuery.Lon (q : GeoDistanceQuery) (lon : float64) : GeoDistanceQuery :=
  { q with lon := lon }

/-- Go `elastic.RangeQuery`: the bounds are absent (`nil`) until set. -/
structure RangeQuery where
  name : String
  from_ : Option GoFloat
  to_ : Option GoFloat
  includeLower : Bool
  includeUpper : Bool
  deriving DecidableEq

/-- Go `elastic.NewRangeQuery(name)`. -/
def NewRangeQuery (name : String) : RangeQuery :=
  { name := name, from_ := none, to_ := none, includeLower := true, includeUpper := true }

/-- Go `RangeQuery.Gte(from)`: an inclusive lower bound. -/
def RangeQuery.Gte (q : RangeQuery) (v : GoFloat) : RangeQuery :=
  { q with from_ := some v, includeLower := true }

/-- Go `elastic.Query`: the two kinds the handlers build. -/
inductive Query where
  | geoDistance (q : GeoDistanceQuery)
  | range (q : RangeQuery)
  deriving DecidableEq

/-- One hit of a search result as `Each(reflect.TypeOf(Post{}))` sees it:
`some p` when the hit yields the value `p`, `none` when its source does not
unmarshal into a `Post`. -/
structure SearchHit where
  decoded : Option Post

/-- Go `elastic.SearchResult`: the hits, in the order the index returned them. -/
structure SearchResult where
  Hits : List SearchHit

/-- Go `searchResult.Each(reflect.TypeOf(ptype))`: the decoded hits in order, the
others skipped. -/
def SearchResult.Each (r : SearchResult) : List Post :=
  r.Hits.filterMap (fun h => h.decoded)

/-- The Elasticsearch client as `saveToES` and `readFromES` use it:
`NewClient sniff` (with `SetSniff(false)` or without), the index request and
the search request. -/
structure ElasticSDK where
  NewClient : String → Bool → Option Error
  IndexDo : String → String → Post → Option Error
  SearchDo : String → Query → Except Error SearchResult

/-- What the world answers during one request. `uuidNew` is the value that
`uuid.New()` yields. -/
structure Env where
  ParseFloat : String → float64 × Option NumError
  uuidNew : String
  storage : StorageSDK
  vision : VisionSDK
  elastic : ElasticSDK

/-! ## Service functions (main.go 221-313, vision.go) -/

/-- A search request on the wire: `client.Search().Index(index).Query(query).Do(ctx)`. -/
structure SentSearch where
  index : String
  query : Query
  deriving DecidableEq

/-- Go `readFromES(query, index)`: the result, the error, and the search
requests it sent to Elasticsearch.  When the client cannot be built the
function returns at lines 224-226, before `client.Search()`: nothing is sent. -/
def readFromES (es : ElasticSDK) (query : Query) (index : String) :
    Option SearchResult × Option Error × List SentSearch :=
  match es.NewClient ES_URL true with
  | some err => (none, some err, [])
  | none =>
    match es.SearchDo index query with
    | .error err => (none, some err, [{ index := index, query := query }])
    | .ok searchResult => (some searchResult, none, [{ index := index, query := query }])

/-- Go `getPostFromSearchResult(searchResult)`: `posts` starts as the nil slice. -/
def getPostFromSearchResult (searchResult : SearchResult) : Slice Post :=
  searchResult.Each.foldl (fun posts p => posts.append p) .nil

/-- Go `saveToGCS(r, objectName)`. -/
def saveToGCS (sdk : StorageSDK) (r : File) (objectName : String) : String × Option Error :=
  match sdk.NewClient with
  | some err => ("", some err)
  | none =>
    match sdk.BucketAttrs BUCKET_NAME with
    | some err => ("", some err)
    | none =>
      match sdk.Copy BUCKET_NAME objectName r with
      | some err => ("", some err)
      | none =>
        match sdk.Close BUCKET_NAME objectName with
        | some err => ("", some err)
        | none =>
          match sdk.ACLSet BUCKET_NAME objectName with
          | some err => ("", some err)
          | none =>
            match sdk.ObjectAttrs BUCKET_NAME objectName with
            | .error err => ("", some err)
            | .ok attrs => (attrs.MediaLink, none)

/-- Go `saveToES(i, index, id)`. -/
def saveToES (es : ElasticSDK) (i : Post) (index : String) (id : String) : Option Error :=
  match es.NewClient ES_URL false with
  | some err => some err
  | none =>
    match es.IndexDo index id i with
    | some err => some err
    | none => none

/-- Go `annotate(uri)` of vision.go. -/
def annotate (sdk : VisionSDK) (uri : String) : float32 × Option Error :=
  match sdk.NewImageAnnotatorClient with
  | some err => (.num 0, some err)
  | none =>
    let image := uri
    match sdk.DetectFaces image 1 with
    | .error err => (.num 0, some err)
    | .ok annotations =>
      match annotations with
      | [] => (.num 0, none)
      | a :: _ => (a.DetectionConfidence, none)

/-! ## Handlers (main.go 80-219, 317-344) -/

/-- A call from a handler to one of the service functions, with its arguments. -/
inductive Call where
  | saveToGCS (r : File) (objectName : String)
  | annotate (uri : String)
  | saveToES (i : Post) (index : String) (id : String)
  | readFromES (query : Query) (index : String)
  deriving DecidableEq

/-- How a handler ended. -/
inductive Exit where
  | returned
  | panicked
  deriving DecidableEq

/-- One run of a handler: how it ended, the response writer, the service calls
in order, the `Post` held by `handlerPost` when it ended (`none` when none
was built), and the search requests sent to Elasticsearch, which are those of
`readFromES` (none unless the handler calls it). -/
structure Run where
  exit : Exit
  w : ResponseWriter
  calls : List Call
  p : Option Post
  searches : List SentSearch := []

/-- Go `handlerPost(w, r)`. -/
def handlerPost (env : Env) (r : Request) : Run :=
  let w := ResponseWriter.new
  let w := w.Set "Content-Type" "application/json"
  let w := w.Set "Access-Control-Allow-Origin" "*"
  let w := w.Set "Access-Control-Allow-Headers" "Content-Type,Authorization"
  if r.Method = "OPTIONS" then
    { exit := .returned, w := w, calls := [], p := none }
  else
  -- lines 97-99 and 106: the type assertions on the token, the claims and the username
  match r.username with
  | none => { exit := .panicked, w := w, calls := [], p := none }
  | some username =>
  let lat := (env.ParseFloat (r.FormValue "lat")).1
  let lon := (env.ParseFloat (r.FormValue "lon")).1
  let p : Post :=
    { User := username,
      Message := r.FormValue "message",
      Location := { Lat := lat, Lon := lon },
      Url := "",
      Type_ := "",
      Face := .num 0 }
  match r.FormFile "image" with
  | none =>
    { exit := .returned, w := http_Error w "Image is not available" StatusBadRequest,
      calls := [], p := some p }
  | some (file, header) =>
  let suffix := Ext header.Filename
  -- lines 123-127: the table entry when `ok`, "unknown" otherwise
  let p : Post := { p with Type_ := (mediaTypes suffix).getD "unknown" }
  let id := env.uuidNew
  match saveToGCS env.storage file id with
  | (_, some _) =>
    { exit := .returned, w := http_Error w "Failed to save image to GCS" StatusInternalServerError,
      calls := [.saveToGCS file id], p := some p }
  | (mediaLink, none) =>
  let p : Post := { p with Url := mediaLink }
  -- lines 156-162, reached from both branches of the test on the type
  let index (p : Post) (calls : List Call) : Run :=
    match saveToES env.elastic p POST_INDEX id with
    | some _ =>
      { exit := .returned,
        w := http_Error w "Failed to save post to Elasticsearch" StatusInternalServerError,
        calls := calls ++ [.saveToES p POST_INDEX id], p := some p }
    | none =>
      { exit := .returned, w := w, calls := calls ++ [.saveToES p POST_INDEX id], p := some p }
  if p.Type_ = "image" then
    let uri := "gs://" ++ BUCKET_NAME ++ "/" ++ id
    match annotate env.vision uri with
    | (_, some _) =>
      { exit := .returned, w := http_Error w "Failed to annotate image" StatusInternalServerError,
        calls := [.saveToGCS file id, .annotate uri], p := some p }
    | (score, none) =>
      let p : Post := { p with Face := score }
      index p [.saveToGCS file id, .annotate uri]
  else
    index p [.saveToGCS file id]

/-- The tail shared by the two search handlers: decode the hits, encode the
posts, write the body (lines 208-218 and 336-343). -/
def writePosts (w : ResponseWriter) (searchResult : SearchResult) (failure : String) : ResponseWriter :=
  let posts := getPostFromSearchResult searchResult
  match Marshal posts with
  | (_, some _) => http_Error w failure StatusInternalServerError
  | (js, none) => w.Write js

/-- Go `handlerSearch(w, r)`. -/
def handlerSearch (env : Env) (r : Request) : Run :=
  let w := ResponseWriter.new
  let w := w.Set "Content-Type" "application/json"
  let w := w.Set "Access-Control-Allow-Origin" "*"
  let w := w.Set "Access-Control-Allow-Headers" "Content-Type,Authorization"
  if r.Method = "OPTIONS" then
    { exit := .returned, w := w, calls := [], p := none }
  else
  let lat := (env.ParseFloat (Values.Get r.Query "lat")).1
  let lon := (env.ParseFloat (Values.Get r.Query "lon")).1
  let ran := DISTANCE
  let ran :=
    let val := Values.Get r.Query "range"
    if val ≠ "" then val ++ "km" else ran
  let query := NewGeoDistanceQuery "location"
  let query := ((query.Distance ran).Lat lat).Lon lon
  match readFromES env.elastic (.geoDistance query) POST_INDEX with
  | (_, some _, sent) =>
    { exit := .returned,
      w := http_Error w "Failed to read post from Elasticsearch" StatusInternalServerError,
      calls := [.readFromES (.geoDistance query) POST_INDEX], p := none, searches := sent }
  | (none, none, sent) =>
    -- a nil result without error (never returned by `readFromES`) is dereferenced at line 246
    { exit := .panicked, w := w, calls := [.readFromES (.geoDistance query) POST_INDEX], p := none,
      searches := sent }
  | (some searchResult, none, sent) =>
    { exit := .returned,
      w := writePosts w searchResult "Failed to parse posts into JSON format",
      calls := [.readFromES (.geoDistance query) POST_INDEX], p := none, searches := sent }

/-- Go `handlerCluster(w, r)`. -/
def handlerCluster (env : Env) (r : Request) : Run :=
  let w := ResponseWriter.new
  let w := w.Set "Content-Type" "application/json"
  let w := w.Set "Access-Control-Allow-Origin" "*"
  let w := w.Set "Access-Control-Allow-Headers" "Content-Type,Authorization"
  if r.Method = "OPTIONS" then
    { exit := .returned, w := w, calls := [], p := none }
  else
  let term := Values.Get r.Query "term"
  let query := (NewRangeQuery term).Gte (.num (9 / 10))
  match readFromES env.elastic (.range query) POST_INDEX with
  | (_, some _, sent) =>
    { exit := .returned,
      w := http_Error w "Failed to read from Elasticsearch" StatusInternalServerError,
      calls := [.readFromES (.range query) POST_INDEX], p := none, searches := sent }
  | (none, none, sent) =>
    -- a nil result without error (never returned by `readFromES`) is dereferenced at line 246
    { exit := .panicked, w := w, calls := [.readFromES (.range query) POST_INDEX], p := none,
      searches := sent }
  | (some searchResult, none, sent) =>
    { exit := .returned,
      w := writePosts w searchResult "Failed to parse post object",
      calls := [.readFromES (.range query) POST_INDEX], p := none, searches := sent }

/-! ## The classifier as the specification words it -/

/-- The final element of a path: what follows its last separator. -/
def finalElement (path : List Char) : List Char :=
  (path.reverse.takeWhile (fun c => c ≠ '/')).reverse

/-- The extension of a file name in the words of the specification: the suffix
starting at the last dot of the final path element, empty when that element has
no dot. -/
def extensionSpec (fileName : String) : String :=
  let e := finalElement fileName.toList
  if '.' ∈ e then ⟨'.' :: (e.reverse.takeWhile (fun c => c ≠ '.')).reverse⟩ else ""

/-- The fixed table of the specification, extension to kind. -/
def kindTableSpec (ext : String) : Option String :=
  if ext = ".jpeg" ∨ ext = ".jpg" ∨ ext = ".gif" ∨ ext = ".png" then some "image"
  else if ext = ".mov" ∨ ext = ".mp4" ∨ ext = ".avi" ∨ ext = ".flv" ∨ ext = ".wmv" then some "video"
  else none

/-- The classifier of the specification: the table at the extension when it is
a key, `unknown` otherwise. -/
def classifySpec (fileName : String) : String :=
  match kindTableSpec (extensionSpec fileName) with
  | some kind => kind
  | none => "unknown"

/-! ## Names for pieces of the handlers -/

/-- The response writer after the three header lines that open every handler. -/
def corsWriter : ResponseWriter :=
  ((ResponseWriter.new.Set "Content-Type" "application/json").Set
    "Access-Control-Allow-Origin" "*").Set "Access-Control-Allow-Headers" "Content-Type,Authorization"

/-- The `Post` built at lines 105-112 of main.go. -/
def newPost (env : Env) (r : Request) (username : String) : Post :=
  { User := username,
    Message := r.FormValue "message",
    Location := { Lat := (env.ParseFloat (r.FormValue "lat")).1,
                  Lon := (env.ParseFloat (r.FormValue "lon")).1 },
    Url := "",
    Type_ := "",
    Face := .num 0 }

/-- The type chosen at lines 122-127 for an attachment named `fileName`. -/
def kindOf (fileName : String) : String :=
  (mediaTypes (Ext fileName)).getD "unknown"

/-- The URI built at line 145. -/
def objectURI (id : String) : String := "gs://" ++ BUCKET_NAME ++ "/" ++ id

/-- The end of `handlerPost`, lines 156-162, on the post `p` after the calls `calls`. -/
def indexRun (env : Env) (p : Post) (calls : List Call) : Run :=
  match saveToES env.elastic p POST_INDEX env.uuidNew with
  | some _ =>
    { exit := .returned,
      w := http_Error corsWriter "Failed to save post to Elasticsearch" StatusInternalServerError,
      calls := calls ++ [.saveToES p POST_INDEX env.uuidNew], p := some p }
  | none =>
    { exit := .returned, w := corsWriter,
      calls := calls ++ [.saveToES p POST_INDEX env.uuidNew], p := some p }

/-- The distance chosen at lines 186-191. -/
def rangeOf (r : Request) : String :=
  if Values.Get r.Query "range" ≠ "" then Values.Get r.Query "range" ++ "km" else DISTANCE

/-- The query built at lines 195-198. -/
def searchQuery (env : Env) (r : Request) : Query :=
  .geoDistance
    { name := "location",
      distance := rangeOf r,
      lat := (env.ParseFloat (Values.Get r.Query "lat")).1,
      lon := (env.ParseFloat (Values.Get r.Query "lon")).1 }

/-- The query built at lines 327-328. -/
def clusterQuery (r : Request) : Query :=
  .range
    { name := Values.Get r.Query "term",
      from_ := some (.num (9 / 10)),
      to_ := none,
      includeLower := true,
      includeUpper := true }

/-- The environment with the errors of the numeric parse erased, its values kept. -/
def Env.eraseParseErrors (env : Env) : Env :=
  { env with ParseFloat := fun s => ((env.ParseFloat s).1, none) }

/-! ## Concrete environments and requests -/

/-- A storage service where every step succeeds; the media link is built from
the bucket and the object name. -/
def sampleStorage : StorageSDK :=
  { NewClient := none,
    BucketAttrs := fun _ => none,
    Copy := fun _ _ _ => none,
    Close := fun _ _ => none,
    ACLSet := fun _ _ => none,
    ObjectAttrs := fun bucket object =>
      .ok { MediaLink := "https://storage.googleapis.com/download/storage/v1/b/" ++ bucket ++
                           "/o/" ++ object ++ "?alt=media" } }

/-- A storage service whose object write fails. -/
def failingStorage : StorageSDK :=
  { sampleStorage with Copy := fun _ _ _ => some "googleapi: Error 503" }

/-- A vision service that detects the given faces. -/
def sampleVision (faces : List FaceDetection) : VisionSDK :=
  { NewImageAnnotatorClient := none,
    DetectFaces := fun _ _ => .ok faces }

/-- A vision service whose detector call fails. -/
def failingVision : VisionSDK :=
  { NewImageAnnotatorClient := none,
    DetectFaces := fun _ _ => .error "rpc error: code = Unavailable" }

/-- Whether the request body of a query can be encoded: no infinity, no NaN. -/
def Query.encodable : Query → Bool
  | .geoDistance q => q.lat.isFinite && q.lon.isFinite
  | .range q =>
    (match q.from_ with | some v => v.isFinite | none => true) &&
    (match q.to_ with | some v => v.isFinite | none => true)

/-- An index that is up: a request whose JSON body cannot be encoded fails in
the client, every other write is accepted and every other search is answered
with the given hits. -/
def sampleElastic (hits : List SearchHit) : ElasticSDK :=
  { NewClient := fun _ _ => none,
    IndexDo := fun _ _ i =>
      match marshalPost i with
      | .ok _ => none
      | .error e => some e,
    SearchDo := fun _ query =>
      if query.encodable then .ok { Hits := hits } else .error "json: unsupported value" }

/-- An index that cannot be reached: the client is not built. -/
def downElastic : ElasticSDK :=
  { sampleElastic [] with NewClient := fun _ _ => some "no Elasticsearch node available" }

/-- A storage service where every step succeeds and the attributes of the
stored object carry an empty media link. -/
def blankLinkStorage : StorageSDK :=
  { sampleStorage with ObjectAttrs := fun _ _ => .ok { MediaLink := "" } }

/-- A world where every service works. -/
def sampleEnv (faces : List FaceDetection) (hits : List SearchHit) : Env :=
  { ParseFloat := decimalParseFloat,
    uuidNew := "6ba7b810-9dad-11d1-80b4-00c04fd430c8",
    storage := sampleStorage,
    vision := sampleVision faces,
    elastic := sampleElastic hits }

/-- A submission by `lisa` with an attachment of the given name. -/
def submission (fileName lat lon : String) : Request :=
  { Method := "POST",
    username := some "lisa",
    Form := [("message", "hello"), ("lat", lat), ("lon", lon)],
    Query := [],
    FormFile := fun key => if key = "image" then some ("bytes", { Filename := fileName }) else none }

/-- A submission by `lisa` without attachment and without coordinates. -/
def bareSubmission : Request :=
  { Method := "POST",
    username := some "lisa",
    Form := [("message", "hello")],
    Query := [],
    FormFile := fun _ => none }

/-- A search request with the given query parameters. -/
def searchRequest (query : Values) : Request :=
  { Method := "GET",
    username := some "lisa",
    Form := [],
    Query := query,
    FormFile := fun _ => none }

/-! ## Lemmas on the classifier -/

theorem extLoop_eq (rev acc : List Char) :
    extLoop rev acc =
      if '.' ∈ rev.takeWhile (fun c => c ≠ '/') then
        '.' :: (((rev.takeWhile (fun c => c ≠ '/')).takeWhile (fun c => c ≠ '.')).reverse ++ acc)
      else [] := by
  induction rev generalizing acc with
  | nil => simp [extLoop]
  | cons c rev ih =>
    unfold extLoop
    by_cases h1 : c = '/'
    · simp [h1]
    · by_cases h2 : c = '.'
      · simp [h2]
      · have h2n : ¬ ('.' = c) := fun h => h2 h.symm
        simp [h1, h2, h2n, ih, List.takeWhile_cons]

theorem Ext_eq_extensionSpec (path : String) : Ext path = extensionSpec path := by
  unfold Ext extensionSpec finalElement
  rw [extLoop_eq]
  simp only [List.mem_reverse, List.reverse_reverse, List.append_nil]
  split <;> rfl

theorem mediaTypes_eq_kindTableSpec (suffix : String) :
    mediaTypes suffix = kindTableSpec suffix := by
  unfold mediaTypes mediaTypesEntries kindTableSpec
  simp only [List.lookup]
  by_cases h1 : suffix = ".jpeg"
  · subst h1; decide
  by_cases h2 : suffix = ".jpg"
  · subst h2; decide
  by_cases h3 : suffix = ".gif"
  · subst h3; decide
  by_cases h4 : suffix = ".png"
  · subst h4; decide
  by_cases h5 : suffix = ".mov"
  · subst h5; decide
  by_cases h6 : suffix = ".mp4"
  · subst h6; decide
  by_cases h7 : suffix = ".avi"
  · subst h7; decide
  by_cases h8 : suffix = ".flv"
  · subst h8; decide
  by_cases h9 : suffix = ".wmv"
  · subst h9; decide
  have e : ∀ k : String, suffix ≠ k → (suffix == k) = false := by
    intro k hk; simpa using hk
  simp [e _ h1, e _ h2, e _ h3, e _ h4, e _ h5, e _ h6, e _ h7, e _ h8, e _ h9, h1, h2, h3, h4, h5,
    h6, h7, h8, h9]

/-! ## The paths of `handlerPost` -/

theorem handlerPost_options (env : Env) (r : Request) (hM : r.Method = "OPTIONS") :
    handlerPost env r = { exit := .returned, w := corsWriter, calls := [], p := none } := by
  simp [handlerPost, hM, corsWriter]

theorem handlerPost_panic (env : Env) (r : Request) (hM : r.Method ≠ "OPTIONS")
    (hU : r.username = none) :
    handlerPost env r = { exit := .panicked, w := corsWriter, calls := [], p := none } := by
  simp [handlerPost, hM, hU, corsWriter]

theorem handlerPost_missing (env : Env) (r : Request) (u : String) (hM : r.Method ≠ "OPTIONS")
    (hU : r.username = some u) (hF : r.FormFile "image" = none) :
    handlerPost env r =
      { exit := .returned, w := http_Error corsWriter "Image is not available" StatusBadRequest,
        calls := [], p := some (newPost env r u) } := by
  simp [handlerPost, hM, hU, hF, corsWriter, newPost]

theorem handlerPost_upload_failed (env : Env) (r : Request) (u : String) (file : File)
    (header : FileHeader) (hM : r.Method ≠ "OPTIONS")
    (hU : r.username = some u) (hF : r.FormFile "image" = some (file, header))
    (hS : (saveToGCS env.storage file env.uuidNew).2 ≠ none) :
    handlerPost env r =
      { exit := .returned,
        w := http_Error corsWriter "Failed to save image to GCS" StatusInternalServerError,
        calls := [.saveToGCS file env.uuidNew],
        p := some { newPost env r u with Type_ := kindOf header.Filename } } := by
  unfold handlerPost
  simp only [hM, hU, hF, if_false]
  generalize saveToGCS env.storage file env.uuidNew = res at hS
  obtain ⟨link, err⟩ := res
  cases err with
  | none => exact absurd rfl hS
  | some e => simp [corsWriter, newPost, kindOf]

theorem handlerPost_annotate_failed (env : Env) (r : Request) (u : String) (file : File)
    (header : FileHeader) (hM : r.Method ≠ "OPTIONS")
    (hU : r.username = some u) (hF : r.FormFile "image" = some (file, header))
    (hS : (saveToGCS env.storage file env.uuidNew).2 = none)
    (hT : kindOf header.Filename = "image")
    (hA : (annotate env.vision (objectURI env.uuidNew)).2 ≠ none) :
    handlerPost env r =
      { exit := .returned,
        w := http_Error corsWriter "Failed to annotate image" StatusInternalServerError,
        calls := [.saveToGCS file env.uuidNew, .annotate (objectURI env.uuidNew)],
        p := some { newPost env r u with
                    Type_ := "image", Url := (saveToGCS env.storage file env.uuidNew).1 } } := by
  unfold handlerPost
  simp only [hM, hU, hF, if_false]
  unfold objectURI at hA
  unfold kindOf at hT
  generalize saveToGCS env.storage file env.uuidNew = res at hS
  obtain ⟨link, err⟩ := res
  simp only at hS
  subst hS
  generalize annotate env.vision ("gs://" ++ BUCKET_NAME ++ "/" ++ env.uuidNew) = ares at hA
  obtain ⟨score, aerr⟩ := ares
  cases aerr with
  | none => exact absurd rfl hA
  | some e => simp [hT, corsWriter, newPost, objectURI]

theorem handlerPost_image (env : Env) (r : Request) (u : String) (file : File)
    (header : FileHeader) (hM : r.Method ≠ "OPTIONS")
    (hU : r.username = some u) (hF : r.FormFile "image" = some (file, header))
    (hS : (saveToGCS env.storage file env.uuidNew).2 = none)
    (hT : kindOf header.Filename = "image")
    (hA : (annotate env.vision (objectURI env.uuidNew)).2 = none) :
    handlerPost env r =
      indexRun env
        { newPost env r u with
          Type_ := "image", Url := (saveToGCS env.storage file env.uuidNew).1,
          Face := (annotate env.vision (objectURI env.uuidNew)).1 }
        [.saveToGCS file env.uuidNew, .annotate (objectURI env.uuidNew)] := by
  unfold handlerPost
  simp only [hM, hU, hF, if_false]
  unfold objectURI at hA
  unfold kindOf at hT
  generalize saveToGCS env.storage file env.uuidNew = res at hS
  obtain ⟨link, err⟩ := res
  simp only at hS
  subst hS
  simp only [objectURI]
  generalize annotate env.vision ("gs://" ++ BUCKET_NAME ++ "/" ++ env.uuidNew) = ares at hA
  obtain ⟨score, aerr⟩ := ares
  simp only at hA
  subst hA
  simp only [hT, if_true, indexRun, newPost, corsWriter]

theorem handlerPost_other (env : Env) (r : Request) (u : String) (file : File)
    (header : FileHeader) (hM : r.Method ≠ "OPTIONS")
    (hU : r.username = some u) (hF : r.FormFile "image" = some (file, header))
    (hS : (saveToGCS env.storage file env.uuidNew).2 = none)
    (hT : kindOf header.Filename ≠ "image") :
    handlerPost env r =
      indexRun env
        { newPost env r u with
          Type_ := kindOf header.Filename, Url := (saveToGCS env.storage file env.uuidNew).1 }
        [.saveToGCS file env.uuidNew] := by
  unfold handlerPost
  simp only [hM, hU, hF, if_false]
  unfold kindOf at hT
  generalize saveToGCS env.storage file env.uuidNew = res at hS
  obtain ⟨link, err⟩ := res
  simp only at hS
  subst hS
  simp only [hT, if_false, indexRun, newPost, corsWriter, kindOf]

/-! ## Helper lemmas -/

theorem indexRun_calls (env : Env) (p : Post) (calls : List Call) :
    (indexRun env p calls).calls = calls ++ [.saveToES p POST_INDEX env.uuidNew] := by
  unfold indexRun; split <;> rfl

theorem indexRun_p (env : Env) (p : Post) (calls : List Call) :
    (indexRun env p calls).p = some p := by
  unfold indexRun; split <;> rfl

theorem indexRun_exit (env : Env) (p : Post) (calls : List Call) :
    (indexRun env p calls).exit = .returned := by
  unfold indexRun; split <;> rfl

theorem indexRun_status (env : Env) (p : Post) (calls : List Call) :
    (indexRun env p calls).w.status =
      if saveToES env.elastic p POST_INDEX env.uuidNew = none then 200 else 500 := by
  unfold indexRun; split <;> simp_all [http_Error, corsWriter, ResponseWriter.Set,
    ResponseWriter.new, StatusOK, StatusInternalServerError]

theorem kindOf_eq_classifySpec (fileName : String) : kindOf fileName = classifySpec fileName := by
  unfold kindOf classifySpec
  rw [mediaTypes_eq_kindTableSpec, Ext_eq_extensionSpec]
  cases kindTableSpec (extensionSpec fileName) <;> rfl

theorem classifySpec_range (fileName : String) :
    classifySpec fileName = "image" ∨ classifySpec fileName = "video" ∨
      classifySpec fileName = "unknown" := by
  unfold classifySpec kindTableSpec
  split_ifs <;> simp

/-- The post held by `handlerPost` once the attachment is read has the type chosen
at lines 122-127; the upload is the first service call. -/
theorem handlerPost_attached (env : Env) (r : Request) (u : String) (file : File)
    (header : FileHeader) (hM : r.Method ≠ "OPTIONS") (hU : r.username = some u)
    (hF : r.FormFile "image" = some (file, header)) :
    (∃ p, (handlerPost env r).p = some p ∧ p.Type_ = kindOf header.Filename ∧
      p.User = u ∧ p.Message = r.FormValue "message" ∧
      p.Location = (newPost env r u).Location) ∧
    ∃ tail, (handlerPost env r).calls = .saveToGCS file env.uuidNew :: tail ∧
      ∀ c ∈ tail, c = .annotate (objectURI env.uuidNew) ∨
        ∃ p, c = .saveToES p POST_INDEX env.uuidNew := by
  by_cases hS : (saveToGCS env.storage file env.uuidNew).2 = none
  · by_cases hT : kindOf header.Filename = "image"
    · by_cases hA : (annotate env.vision (objectURI env.uuidNew)).2 = none
      · rw [handlerPost_image env r u file header hM hU hF hS hT hA]
        simp [indexRun_p, indexRun_calls, hT, newPost]
      · rw [handlerPost_annotate_failed env r u file header hM hU hF hS hT hA]
        simp [hT, newPost]
    · rw [handlerPost_other env r u file header hM hU hF hS hT]
      simp [indexRun_p, indexRun_calls, newPost]
  · rw [handlerPost_upload_failed env r u file header hM hU hF hS]
    simp [newPost]

theorem annotate_of_detections (sdk : VisionSDK) (uri : String) (annotations : List FaceDetection)
    (hC : sdk.NewImageAnnotatorClient = none) (hD : sdk.DetectFaces uri 1 = .ok annotations) :
    annotate sdk uri = ((annotations.head?.map (fun a => a.DetectionConfidence)).getD (.num 0), none) := by
  unfold annotate
  simp only [hC, hD]
  cases annotations <;> rfl

theorem handlerSearch_calls (env : Env) (r : Request) (hM : r.Method ≠ "OPTIONS") :
    (handlerSearch env r).calls = [.readFromES (searchQuery env r) POST_INDEX] := by
  unfold handlerSearch
  simp only [hM, if_false]
  split <;> rfl

theorem handlerCluster_calls (env : Env) (r : Request) (hM : r.Method ≠ "OPTIONS") :
    (handlerCluster env r).calls = [.readFromES (clusterQuery r) POST_INDEX] := by
  unfold handlerCluster
  simp only [hM, if_false]
  split <;> rfl

theorem readFromES_client_down (es : ElasticSDK) (query : Query) (index : String) (err : Error)
    (h : es.NewClient ES_URL true = some err) :
    readFromES es query index = (none, some err, []) := by
  unfold readFromES; rw [h]

theorem readFromES_search_failed (es : ElasticSDK) (query : Query) (index : String) (err : Error)
    (h : es.NewClient ES_URL true = none) (hs : es.SearchDo index query = .error err) :
    readFromES es query index = (none, some err, [{ index := index, query := query }]) := by
  unfold readFromES; rw [h]; simp only [hs]

theorem readFromES_search_ok (es : ElasticSDK) (query : Query) (index : String)
    (searchResult : SearchResult)
    (h : es.NewClient ES_URL true = none) (hs : es.SearchDo index query = .ok searchResult) :
    readFromES es query index =
      (some searchResult, none, [{ index := index, query := query }]) := by
  unfold readFromES; rw [h]; simp only [hs]

theorem handlerSearch_run (env : Env) (r : Request) (hM : r.Method ≠ "OPTIONS") :
    handlerSearch env r =
      match readFromES env.elastic (searchQuery env r) POST_INDEX with
      | (_, some _, sent) =>
        { exit := .returned,
          w := http_Error corsWriter "Failed to read post from Elasticsearch"
            StatusInternalServerError,
          calls := [.readFromES (searchQuery env r) POST_INDEX], p := none, searches := sent }
      | (none, none, sent) =>
        { exit := .panicked, w := corsWriter,
          calls := [.readFromES (searchQuery env r) POST_INDEX], p := none, searches := sent }
      | (some searchResult, none, sent) =>
        { exit := .returned,
          w := writePosts corsWriter searchResult "Failed to parse posts into JSON format",
          calls := [.readFromES (searchQuery env r) POST_INDEX], p := none, searches := sent } := by
  unfold handlerSearch
  simp only [hM, if_false]
  rfl

theorem handlerCluster_run (env : Env) (r : Request) (hM : r.Method ≠ "OPTIONS") :
    handlerCluster env r =
      match readFromES env.elastic (clusterQuery r) POST_INDEX with
      | (_, some _, sent) =>
        { exit := .returned,
          w := http_Error corsWriter "Failed to read from Elasticsearch" StatusInternalServerError,
          calls := [.readFromES (clusterQuery r) POST_INDEX], p := none, searches := sent }
      | (none, none, sent) =>
        { exit := .panicked, w := corsWriter,
          calls := [.readFromES (clusterQuery r) POST_INDEX], p := none, searches := sent }
      | (some searchResult, none, sent) =>
        { exit := .returned,
          w := writePosts corsWriter searchResult "Failed to parse post object",
          calls := [.readFromES (clusterQuery r) POST_INDEX], p := none, searches := sent } := by
  unfold handlerCluster
  simp only [hM, if_false]
  rfl

theorem Values.Get_absent (v : Values) (key : String) (h : v.lookup key = none) :
    Values.Get v key = "" := by
  unfold Values.Get; rw [h]; rfl

theorem Values.Get_present (v : Values) (key val : String) (h : v.lookup key = some val) :
    Values.Get v key = val := by
  unfold Values.Get; rw [h]; rfl

theorem saveToGCS_link (sdk : StorageSDK) (file : File) (objectName : String)
    (h : (saveToGCS sdk file objectName).2 = none) :
    ∃ attrs, sdk.ObjectAttrs BUCKET_NAME objectName = .ok attrs ∧
      (saveToGCS sdk file objectName).1 = attrs.MediaLink := by
  unfold saveToGCS at h ⊢
  repeat' split at h
  all_goals first
    | (simp at h; done)
    | (rename_i attrs hattrs; exact ⟨attrs, hattrs, by simp_all⟩)

theorem decimalParseFloat_contract : ParseFloatContract decimalParseFloat := by
  refine ⟨by decide, ?_, ?_⟩
  · intro s h
    unfold decimalParseFloat at h ⊢
    split at h
    · rfl
    · split at h <;> simp at h
  · intro s h
    unfold decimalParseFloat at h ⊢
    split at h
    · simp at h
    · split at h
      · rename_i neg m e hov
        simp only [hov, if_true]
        cases neg <;> simp
      · simp at h

theorem handlerPost_held_location (env : Env) (r : Request) (p : Post)
    (h : (handlerPost env r).p = some p) :
    p.Location = { Lat := (env.ParseFloat (r.FormValue "lat")).1,
                   Lon := (env.ParseFloat (r.FormValue "lon")).1 } := by
  by_cases hM : r.Method = "OPTIONS"
  · rw [handlerPost_options env r hM] at h; simp at h
  cases hU : r.username with
  | none => rw [handlerPost_panic env r hM hU] at h; simp at h
  | some u =>
    cases hF : r.FormFile "image" with
    | none =>
      rw [handlerPost_missing env r u hM hU hF] at h
      simp only [Option.some.injEq] at h
      subst h; rfl
    | some fh =>
      obtain ⟨file, header⟩ := fh
      obtain ⟨⟨q, hq, -, -, -, hloc⟩, -⟩ := handlerPost_attached env r u file header hM hU hF
      rw [hq] at h
      simp only [Option.some.injEq] at h
      subst h
      rw [hloc]; rfl

theorem handlerPost_holds_post (env : Env) (r : Request) (hM : r.Method ≠ "OPTIONS")
    (hU : r.username ≠ none) : ∃ p, (handlerPost env r).p = some p := by
  obtain ⟨u, hU⟩ := Option.ne_none_iff_exists'.mp hU
  cases hF : r.FormFile "image" with
  | none => rw [handlerPost_missing env r u hM hU hF]; exact ⟨_, rfl⟩
  | some fh =>
    obtain ⟨file, header⟩ := fh
    obtain ⟨⟨q, hq, -⟩, -⟩ := handlerPost_attached env r u file header hM hU hF
    exact ⟨q, hq⟩

theorem foldl_append_mk (l acc : List Post) :
    l.foldl (fun posts p => posts.append p) (Slice.mk acc) = Slice.mk (acc ++ l) := by
  induction l generalizing acc with
  | nil => simp
  | cons x xs ih =>
    rw [List.foldl_cons]
    show List.foldl (fun posts p => posts.append p) (Slice.mk (acc ++ [x])) xs = _
    rw [ih, List.append_assoc]
    rfl

theorem getPostFromSearchResult_nil (searchResult : SearchResult) (h : searchResult.Each = []) :
    getPostFromSearchResult searchResult = .nil := by
  unfold getPostFromSearchResult; rw [h]; rfl

theorem getPostFromSearchResult_cons (searchResult : SearchResult) (p : Post) (ps : List Post)
    (h : searchResult.Each = p :: ps) :
    getPostFromSearchResult searchResult = .mk (p :: ps) := by
  unfold getPostFromSearchResult
  rw [h, List.foldl_cons]
  show List.foldl (fun posts p => posts.append p) (Slice.mk [p]) ps = _
  rw [foldl_append_mk]
  rfl

/-- When at least one hit decodes and the posts encode, the body is the array of
the encoded posts, in the order of the hits. -/
theorem writePosts_of_posts (w : ResponseWriter) (searchResult : SearchResult) (failure : String)
    (p : Post) (ps : List Post) (js : List JSON) (h : searchResult.Each = p :: ps)
    (hj : marshalPosts (p :: ps) = .ok js) :
    (writePosts w searchResult failure).body = .json (.arr js) := by
  unfold writePosts
  rw [getPostFromSearchResult_cons _ _ _ h]
  simp only [Marshal, hj, ResponseWriter.Write]

/-! ## Claims -/

/-- C1: `saveToES` is called only if the attachment was present, the upload
succeeded and, when the type is image, the annotation succeeded.  For a
submission (not a preflight, a user name in the token): a missing attachment
answers 400 with no service call at all; a failed upload answers 500 with the
upload as the only call; for an image, a failed annotation answers 500 with the
upload and the annotation as the only calls. -/
theorem handlerPost_failure_stops_before_index (env : Env) (r : Request) :
    ((∃ i index id, Call.saveToES i index id ∈ (handlerPost env r).calls) →
      ∃ file header, r.FormFile "image" = some (file, header) ∧
        (saveToGCS env.storage file env.uuidNew).2 = none ∧
        (kindOf header.Filename = "image" →
          (annotate env.vision (objectURI env.uuidNew)).2 = none)) ∧
    (r.Method ≠ "OPTIONS" → r.username ≠ none →
      (r.FormFile "image" = none →
        (handlerPost env r).exit = .returned ∧
        (handlerPost env r).w.status = 400 ∧
        (handlerPost env r).calls = []) ∧
      (∀ file header, r.FormFile "image" = some (file, header) →
        (saveToGCS env.storage file env.uuidNew).2 ≠ none →
        (handlerPost env r).exit = .returned ∧
        (handlerPost env r).w.status = 500 ∧
        (handlerPost env r).calls = [.saveToGCS file env.uuidNew]) ∧
      (∀ file header, r.FormFile "image" = some (file, header) →
        (saveToGCS env.storage file env.uuidNew).2 = none →
        kindOf header.Filename = "image" →
        (annotate env.vision (objectURI env.uuidNew)).2 ≠ none →
        (handlerPost env r).exit = .returned ∧
        (handlerPost env r).w.status = 500 ∧
        (handlerPost env r).calls =
          [.saveToGCS file env.uuidNew, .annotate (objectURI env.uuidNew)])) := by
  refine ⟨?_, ?_⟩
  · rintro ⟨i, index, id, hmem⟩
    by_cases hM : r.Method = "OPTIONS"
    · rw [handlerPost_options env r hM] at hmem; simp at hmem
    cases hU : r.username with
    | none => rw [handlerPost_panic env r hM hU] at hmem; simp at hmem
    | some u =>
      cases hF : r.FormFile "image" with
      | none => rw [handlerPost_missing env r u hM hU hF] at hmem; simp at hmem
      | some fh =>
        obtain ⟨file, header⟩ := fh
        by_cases hS : (saveToGCS env.storage file env.uuidNew).2 = none
        · refine ⟨file, header, rfl, hS, ?_⟩
          intro hT
          by_contra hA
          rw [handlerPost_annotate_failed env r u file header hM hU hF hS hT hA] at hmem
          simp at hmem
        · rw [handlerPost_upload_failed env r u file header hM hU hF hS] at hmem
          simp at hmem
  · intro hM hU
    obtain ⟨u, hU⟩ := Option.ne_none_iff_exists'.mp hU
    refine ⟨?_, ?_, ?_⟩
    · intro hF
      rw [handlerPost_missing env r u hM hU hF]
      simp [http_Error, StatusBadRequest]
    · intro file header hF hS
      rw [handlerPost_upload_failed env r u file header hM hU hF hS]
      simp [http_Error, StatusInternalServerError]
    · intro file header hF hS hT hA
      rw [handlerPost_annotate_failed env r u file header hM hU hF hS hT hA]
      simp [http_Error, StatusInternalServerError]

/-- The three failing stages of C1 on concrete submissions. -/
theorem handlerPost_failure_stops_before_index_witness :
    ((handlerPost (sampleEnv [] []) bareSubmission).exit = .returned ∧
      (handlerPost (sampleEnv [] []) bareSubmission).w.status = 400 ∧
      (handlerPost (sampleEnv [] []) bareSubmission).calls = []) ∧
    ((handlerPost { sampleEnv [] [] with storage := failingStorage }
        (submission "face.jpg" "37.0" "-122.0")).exit = .returned ∧
      (handlerPost { sampleEnv [] [] with storage := failingStorage }
        (submission "face.jpg" "37.0" "-122.0")).w.status = 500 ∧
      (handlerPost { sampleEnv [] [] with storage := failingStorage }
        (submission "face.jpg" "37.0" "-122.0")).calls =
        [.saveToGCS "bytes" "6ba7b810-9dad-11d1-80b4-00c04fd430c8"]) ∧
    ((handlerPost { sampleEnv [] [] with vision := failingVision }
        (submission "face.jpg" "37.0" "-122.0")).exit = .returned ∧
      (handlerPost { sampleEnv [] [] with vision := failingVision }
        (submission "face.jpg" "37.0" "-122.0")).w.status = 500 ∧
      (handlerPost { sampleEnv [] [] with vision := failingVision }
        (submission "face.jpg" "37.0" "-122.0")).calls =
        [.saveToGCS "bytes" "6ba7b810-9dad-11d1-80b4-00c04fd430c8",
          .annotate "gs://lusha-bucket/6ba7b810-9dad-11d1-80b4-00c04fd430c8"]) :=
  ⟨((handlerPost_failure_stops_before_index (sampleEnv [] []) bareSubmission).2
      (by decide) (by decide)).1 rfl,
   ((handlerPost_failure_stops_before_index { sampleEnv [] [] with storage := failingStorage }
      (submission "face.jpg" "37.0" "-122.0")).2 (by decide) (by decide)).2.1
      "bytes" { Filename := "face.jpg" } rfl (by decide),
   ((handlerPost_failure_stops_before_index { sampleEnv [] [] with vision := failingVision }
      (submission "face.jpg" "37.0" "-122.0")).2 (by decide) (by decide)).2.2
      "bytes" { Filename := "face.jpg" } rfl (by decide) (by decide) (by decide)⟩

/-- C2: for a submission whose attachment is named `header.Filename`, the upload
is reached and the type of the post is the classifier of the specification at
that name: the value of the fixed table at the extension (the suffix from the
last dot of the final path element) when it is a key, `unknown` otherwise; so
it is one of image, video, unknown. -/
theorem handlerPost_type_from_table (env : Env) (r : Request) (u : String) (file : File)
    (header : FileHeader) (hM : r.Method ≠ "OPTIONS") (hU : r.username = some u)
    (hF : r.FormFile "image" = some (file, header)) :
    (handlerPost env r).calls.head? = some (.saveToGCS file env.uuidNew) ∧
    ∃ p, (handlerPost env r).p = some p ∧
      p.Type_ = classifySpec header.Filename ∧
      (∀ kind, kindTableSpec (extensionSpec header.Filename) = some kind → p.Type_ = kind) ∧
      (kindTableSpec (extensionSpec header.Filename) = none → p.Type_ = "unknown") ∧
      (p.Type_ = "image" ∨ p.Type_ = "video" ∨ p.Type_ = "unknown") := by
  obtain ⟨⟨p, hp, hty, -⟩, tail, hc, -⟩ := handlerPost_attached env r u file header hM hU hF
  refine ⟨by rw [hc]; rfl, p, hp, ?_, ?_, ?_, ?_⟩
  · rw [hty, kindOf_eq_classifySpec]
  · intro kind hk
    rw [hty, kindOf_eq_classifySpec]; unfold classifySpec; rw [hk]
  · intro hk
    rw [hty, kindOf_eq_classifySpec]; unfold classifySpec; rw [hk]
  · rw [hty, kindOf_eq_classifySpec]; exact classifySpec_range _

/-- C2 on a name whose directory has a dot. -/
theorem handlerPost_type_from_table_witness :
    extensionSpec "holiday.2019/beach.jpeg" = ".jpeg" ∧
    kindTableSpec ".jpeg" = some "image" ∧
    (handlerPost (sampleEnv [] []) (submission "holiday.2019/beach.jpeg" "37.0" "-122.0")).calls.head? =
      some (.saveToGCS "bytes" "6ba7b810-9dad-11d1-80b4-00c04fd430c8") ∧
    ∃ p, (handlerPost (sampleEnv [] []) (submission "holiday.2019/beach.jpeg" "37.0" "-122.0")).p =
        some p ∧
      p.Type_ = "image" := by
  obtain ⟨hcalls, p, hp, -, hkind, -, -⟩ :=
    handlerPost_type_from_table (sampleEnv [] [])
      (submission "holiday.2019/beach.jpeg" "37.0" "-122.0")
      "lisa" "bytes" { Filename := "holiday.2019/beach.jpeg" } (by decide) rfl rfl
  exact ⟨by decide, by decide, hcalls, p, hp, hkind "image" (by decide)⟩

/-- C3: when the attachment classifies to a kind other than image, no call to
`annotate` is made, every post passed to `saveToES` has face zero, and the run
is the same whatever the vision service answers; after a successful upload the
calls are exactly the upload and the index write of a post with face zero. -/
theorem handlerPost_non_image_skips_annotate (env : Env) (r : Request) (file : File)
    (header : FileHeader) (hF : r.FormFile "image" = some (file, header))
    (hT : kindOf header.Filename ≠ "image") :
    (∀ uri, Call.annotate uri ∉ (handlerPost env r).calls) ∧
    (∀ i index id, Call.saveToES i index id ∈ (handlerPost env r).calls → i.Face = .num 0) ∧
    (∀ vision, handlerPost { env with vision := vision } r = handlerPost env r) ∧
    (r.Method ≠ "OPTIONS" → r.username ≠ none →
      (saveToGCS env.storage file env.uuidNew).2 = none →
      ∃ p, p.Face = .num 0 ∧ p.Type_ = kindOf header.Filename ∧
        (handlerPost env r).p = some p ∧
        (handlerPost env r).calls =
          [.saveToGCS file env.uuidNew, .saveToES p POST_INDEX env.uuidNew]) := by
  have key : ∀ env : Env,
      (∀ uri, Call.annotate uri ∉ (handlerPost env r).calls) ∧
      (∀ i index id, Call.saveToES i index id ∈ (handlerPost env r).calls → i.Face = .num 0) := by
    intro env
    by_cases hM : r.Method = "OPTIONS"
    · rw [handlerPost_options env r hM]; simp
    cases hU : r.username with
    | none => rw [handlerPost_panic env r hM hU]; simp
    | some u =>
      by_cases hS : (saveToGCS env.storage file env.uuidNew).2 = none
      · rw [handlerPost_other env r u file header hM hU hF hS hT]
        simp only [indexRun_calls]
        constructor
        · intro uri; simp
        · intro i index id hmem
          simp at hmem
          rw [hmem.1]; rfl
      · rw [handlerPost_upload_failed env r u file header hM hU hF hS]; simp
  refine ⟨(key env).1, (key env).2, ?_, ?_⟩
  · intro vision
    by_cases hM : r.Method = "OPTIONS"
    · rw [handlerPost_options env r hM, handlerPost_options _ r hM]
    cases hU : r.username with
    | none => rw [handlerPost_panic env r hM hU, handlerPost_panic _ r hM hU]
    | some u =>
      by_cases hS : (saveToGCS env.storage file env.uuidNew).2 = none
      · rw [handlerPost_other env r u file header hM hU hF hS hT,
          handlerPost_other { env with vision := vision } r u file header hM hU hF hS hT]
        rfl
      · rw [handlerPost_upload_failed env r u file header hM hU hF hS,
          handlerPost_upload_failed { env with vision := vision } r u file header hM hU hF hS]
        rfl
  · intro hM hU hS
    obtain ⟨u, hU⟩ := Option.ne_none_iff_exists'.mp hU
    rw [handlerPost_other env r u file header hM hU hF hS hT]
    exact ⟨_, rfl, rfl, indexRun_p _ _ _, indexRun_calls _ _ _⟩

/-- C3 on a video, with a detector that would report 0.95. -/
theorem handlerPost_non_image_skips_annotate_witness :
    kindOf "clip.mp4" = "video" ∧
    (∀ uri, Call.annotate uri ∉
      (handlerPost (sampleEnv [⟨.num (95 / 100)⟩] []) (submission "clip.mp4" "37.0" "-122.0")).calls) ∧
    ∃ p, p.Face = .num 0 ∧ p.Type_ = kindOf "clip.mp4" ∧
      (handlerPost (sampleEnv [⟨.num (95 / 100)⟩] []) (submission "clip.mp4" "37.0" "-122.0")).p = some p ∧
      (handlerPost (sampleEnv [⟨.num (95 / 100)⟩] []) (submission "clip.mp4" "37.0" "-122.0")).calls =
        [.saveToGCS "bytes" "6ba7b810-9dad-11d1-80b4-00c04fd430c8",
          .saveToES p POST_INDEX "6ba7b810-9dad-11d1-80b4-00c04fd430c8"] :=
  ⟨by decide,
   (handlerPost_non_image_skips_annotate (sampleEnv [⟨.num (95 / 100)⟩] [])
      (submission "clip.mp4" "37.0" "-122.0") "bytes" { Filename := "clip.mp4" } rfl (by decide)).1,
   (handlerPost_non_image_skips_annotate (sampleEnv [⟨.num (95 / 100)⟩] [])
      (submission "clip.mp4" "37.0" "-122.0") "bytes" { Filename := "clip.mp4" } rfl (by decide)).2.2.2
      (by decide) (by decide) (by decide)⟩

/-- C4: for an image whose upload succeeds and whose detector call returns the
list `annotations`, `annotate` reports no error (an empty list gives 0 and no
error), the calls are the upload, the annotation and the index write, and the
post written has type image and face the confidence of the first detection, or
zero when the list is empty; the response is 200 when the index write succeeds. -/
theorem handlerPost_image_face_score (env : Env) (r : Request) (u : String) (file : File)
    (header : FileHeader) (annotations : List FaceDetection)
    (hM : r.Method ≠ "OPTIONS") (hU : r.username = some u)
    (hF : r.FormFile "image" = some (file, header))
    (hT : kindOf header.Filename = "image")
    (hS : (saveToGCS env.storage file env.uuidNew).2 = none)
    (hC : env.vision.NewImageAnnotatorClient = none)
    (hD : env.vision.DetectFaces (objectURI env.uuidNew) 1 = .ok annotations) :
    (annotate env.vision (objectURI env.uuidNew)).2 = none ∧
    (annotations = [] → annotate env.vision (objectURI env.uuidNew) = (.num 0, none)) ∧
    ∃ p, (handlerPost env r).calls =
        [.saveToGCS file env.uuidNew, .annotate (objectURI env.uuidNew),
          .saveToES p POST_INDEX env.uuidNew] ∧
      (handlerPost env r).p = some p ∧
      p.Type_ = "image" ∧
      (annotations = [] → p.Face = .num 0) ∧
      (∀ a rest, annotations = a :: rest → p.Face = a.DetectionConfidence) ∧
      (handlerPost env r).exit = .returned ∧
      (saveToES env.elastic p POST_INDEX env.uuidNew = none → (handlerPost env r).w.status = 200) := by
  have hann := annotate_of_detections env.vision (objectURI env.uuidNew) annotations hC hD
  have hA : (annotate env.vision (objectURI env.uuidNew)).2 = none := by rw [hann]
  refine ⟨hA, ?_, ?_⟩
  · intro h; rw [hann, h]; rfl
  · rw [handlerPost_image env r u file header hM hU hF hS hT hA]
    refine ⟨_, indexRun_calls _ _ _, indexRun_p _ _ _, rfl, ?_, ?_, indexRun_exit _ _ _, ?_⟩
    · intro h; simp only [hann, h]; rfl
    · intro a rest h; simp only [hann, h]; rfl
    · intro h; rw [indexRun_status, if_pos h]

/-- C4 with a detector that reports 0.73. -/
theorem handlerPost_image_face_score_witness :
    kindOf "face.jpg" = "image" ∧
    ∃ p, (handlerPost (sampleEnv [⟨.num (73 / 100)⟩] []) (submission "face.jpg" "37.0" "-122.0")).calls =
        [.saveToGCS "bytes" "6ba7b810-9dad-11d1-80b4-00c04fd430c8",
          .annotate "gs://lusha-bucket/6ba7b810-9dad-11d1-80b4-00c04fd430c8",
          .saveToES p "post" "6ba7b810-9dad-11d1-80b4-00c04fd430c8"] ∧
      p.Type_ = "image" ∧
      p.Face = .num (73 / 100) := by
  obtain ⟨-, -, p, hcalls, -, hty, -, hface, -, -⟩ :=
    handlerPost_image_face_score (sampleEnv [⟨.num (73 / 100)⟩] [])
      (submission "face.jpg" "37.0" "-122.0") "lisa" "bytes" { Filename := "face.jpg" }
      [⟨.num (73 / 100)⟩] (by decide) rfl rfl (by decide) (by decide) rfl rfl
  exact ⟨by decide, p, hcalls, hty, hface _ _ rfl⟩

/-- C5: every service call of `handlerPost` carries the one identifier that
`uuid.New()` yielded: as object name of the upload, inside the URI
`gs://lusha-bucket/<id>` of the annotation, and as document id of the index
write.  The identifier is a value of the environment: any other request `r2`,
with another message, other coordinates, another file name or another user,
gets the same one.  A submission that reaches the upload makes these calls in
this order. -/
theorem handlerPost_one_identifier (env : Env) (r : Request) :
    (∀ c ∈ (handlerPost env r).calls,
      (∃ file, c = .saveToGCS file env.uuidNew) ∨
      c = .annotate ("gs://" ++ BUCKET_NAME ++ "/" ++ env.uuidNew) ∨
      ∃ p, c = .saveToES p POST_INDEX env.uuidNew) ∧
    (∀ r2 : Request, ∀ c ∈ (handlerPost env r2).calls,
      (∃ file, c = .saveToGCS file env.uuidNew) ∨
      c = .annotate ("gs://" ++ BUCKET_NAME ++ "/" ++ env.uuidNew) ∨
      ∃ p, c = .saveToES p POST_INDEX env.uuidNew) ∧
    (∀ u file header, r.Method ≠ "OPTIONS" → r.username = some u →
      r.FormFile "image" = some (file, header) →
      (handlerPost env r).calls.head? = some (.saveToGCS file env.uuidNew) ∧
      ((saveToGCS env.storage file env.uuidNew).2 = none →
        kindOf header.Filename = "image" →
        (handlerPost env r).calls.tail.head? =
          some (.annotate ("gs://" ++ BUCKET_NAME ++ "/" ++ env.uuidNew))) ∧
      ((saveToGCS env.storage file env.uuidNew).2 = none →
        (kindOf header.Filename = "image" →
          (annotate env.vision (objectURI env.uuidNew)).2 = none) →
        ∃ p, (handlerPost env r).calls.getLast? = some (.saveToES p POST_INDEX env.uuidNew))) := by
  have key : ∀ r : Request, ∀ c ∈ (handlerPost env r).calls,
      (∃ file, c = .saveToGCS file env.uuidNew) ∨
      c = .annotate ("gs://" ++ BUCKET_NAME ++ "/" ++ env.uuidNew) ∨
      ∃ p, c = .saveToES p POST_INDEX env.uuidNew := by
    intro r c hc
    by_cases hM : r.Method = "OPTIONS"
    · rw [handlerPost_options env r hM] at hc; simp at hc
    cases hU : r.username with
    | none => rw [handlerPost_panic env r hM hU] at hc; simp at hc
    | some u =>
      cases hF : r.FormFile "image" with
      | none => rw [handlerPost_missing env r u hM hU hF] at hc; simp at hc
      | some fh =>
        obtain ⟨file, header⟩ := fh
        obtain ⟨-, tail, hcalls, htail⟩ := handlerPost_attached env r u file header hM hU hF
        rw [hcalls] at hc
        rcases List.mem_cons.mp hc with h | h
        · exact Or.inl ⟨file, h⟩
        · exact Or.inr (htail c h)
  refine ⟨key r, key, ?_⟩
  · intro u file header hM hU hF
    refine ⟨?_, ?_, ?_⟩
    · obtain ⟨-, tail, hcalls, -⟩ := handlerPost_attached env r u file header hM hU hF
      rw [hcalls]; rfl
    · intro hS hT
      by_cases hA : (annotate env.vision (objectURI env.uuidNew)).2 = none
      · rw [handlerPost_image env r u file header hM hU hF hS hT hA, indexRun_calls]; rfl
      · rw [handlerPost_annotate_failed env r u file header hM hU hF hS hT hA]; rfl
    · intro hS hA
      by_cases hT : kindOf header.Filename = "image"
      · rw [handlerPost_image env r u file header hM hU hF hS hT (hA hT), indexRun_calls]
        exact ⟨_, List.getLast?_concat _⟩
      · rw [handlerPost_other env r u file header hM hU hF hS hT, indexRun_calls]
        exact ⟨_, List.getLast?_concat _⟩

/-- C5 on an image submission where every stage succeeds. -/
theorem handlerPost_one_identifier_witness :
    (handlerPost (sampleEnv [] []) (submission "face.jpg" "37.0" "-122.0")).calls.head? =
      some (.saveToGCS "bytes" "6ba7b810-9dad-11d1-80b4-00c04fd430c8") ∧
    (handlerPost (sampleEnv [] []) (submission "face.jpg" "37.0" "-122.0")).calls.tail.head? =
      some (.annotate "gs://lusha-bucket/6ba7b810-9dad-11d1-80b4-00c04fd430c8") ∧
    ∃ p, (handlerPost (sampleEnv [] []) (submission "face.jpg" "37.0" "-122.0")).calls.getLast? =
      some (.saveToES p "post" "6ba7b810-9dad-11d1-80b4-00c04fd430c8") :=
  ⟨(((handlerPost_one_identifier (sampleEnv [] []) (submission "face.jpg" "37.0" "-122.0")).2.2
      "lisa" "bytes" { Filename := "face.jpg" } (by decide) rfl rfl)).1,
   (((handlerPost_one_identifier (sampleEnv [] []) (submission "face.jpg" "37.0" "-122.0")).2.2
      "lisa" "bytes" { Filename := "face.jpg" } (by decide) rfl rfl)).2.1 (by decide) (by decide),
   (((handlerPost_one_identifier (sampleEnv [] []) (submission "face.jpg" "37.0" "-122.0")).2.2
      "lisa" "bytes" { Filename := "face.jpg" } (by decide) rfl rfl)).2.2 (by decide)
      (fun _ => by decide)⟩

/-- C6, amended: a radius search (not a preflight) makes exactly one call to
`readFromES`, on the collection `post`, with a geo-distance query on `location`
centred at the parsed latitude and longitude, whose distance is `200km` when
the range parameter is absent or empty and the parameter followed by `km`
otherwise.  When the Elasticsearch client is built, `readFromES` sends exactly
one search request, that query on the index `post`, and the response follows
the answer of that request; when the client cannot be built, no search request
is sent and the answer is 500. -/
theorem handlerSearch_one_geo_query (env : Env) (r : Request) (hM : r.Method ≠ "OPTIONS") :
    ∃ distance,
      searchQuery env r =
        .geoDistance
          { name := "location",
            distance := distance,
            lat := (env.ParseFloat (Values.Get r.Query "lat")).1,
            lon := (env.ParseFloat (Values.Get r.Query "lon")).1 } ∧
      (r.Query.lookup "range" = none → distance = "200km") ∧
      (r.Query.lookup "range" = some "" → distance = "200km") ∧
      (∀ val, r.Query.lookup "range" = some val → val ≠ "" → distance = val ++ "km") ∧
      (handlerSearch env r).calls = [.readFromES (searchQuery env r) "post"] ∧
      (env.elastic.NewClient ES_URL true = none →
        (handlerSearch env r).searches = [{ index := "post", query := searchQuery env r }] ∧
        (∀ searchResult, env.elastic.SearchDo "post" (searchQuery env r) = .ok searchResult →
          (handlerSearch env r).exit = .returned ∧
          (handlerSearch env r).w =
            writePosts corsWriter searchResult "Failed to parse posts into JSON format") ∧
        (∀ err, env.elastic.SearchDo "post" (searchQuery env r) = .error err →
          (handlerSearch env r).exit = .returned ∧ (handlerSearch env r).w.status = 500)) ∧
      (env.elastic.NewClient ES_URL true ≠ none →
        (handlerSearch env r).searches = [] ∧
        (handlerSearch env r).exit = .returned ∧
        (handlerSearch env r).w.status = 500) := by
  refine ⟨rangeOf r, rfl, ?_, ?_, ?_, handlerSearch_calls env r hM, ?_, ?_⟩
  · intro h; unfold rangeOf; rw [Values.Get_absent _ _ h]; rfl
  · intro h; unfold rangeOf; rw [Values.Get_present _ _ _ h]; rfl
  · intro val h hne; unfold rangeOf; rw [Values.Get_present _ _ _ h, if_pos hne]
  · intro hC
    refine ⟨?_, ?_, ?_⟩
    · rw [handlerSearch_run env r hM]
      cases hs : env.elastic.SearchDo POST_INDEX (searchQuery env r) with
      | error err => rw [readFromES_search_failed _ _ _ err hC hs]; rfl
      | ok sr => rw [readFromES_search_ok _ _ _ sr hC hs]; rfl
    · intro sr hs
      rw [handlerSearch_run env r hM, readFromES_search_ok _ _ POST_INDEX sr hC hs]
      exact ⟨rfl, rfl⟩
    · intro err hs
      rw [handlerSearch_run env r hM, readFromES_search_failed _ _ POST_INDEX err hC hs]
      exact ⟨rfl, rfl⟩
  · intro hC
    obtain ⟨err, hC⟩ := Option.ne_none_iff_exists'.mp hC
    rw [handlerSearch_run env r hM, readFromES_client_down _ _ _ err hC]
    exact ⟨rfl, rfl, rfl⟩

/-- C6, amended, without and with a range parameter, on an index that is up. -/
theorem handlerSearch_one_geo_query_witness :
    (handlerSearch (sampleEnv [] []) (searchRequest [("lat", "37.0"), ("lon", "-122.0")])).searches =
        [{ index := "post",
           query := .geoDistance
            { name := "location",
              distance := "200km",
              lat := (decimalParseFloat "37.0").1,
              lon := (decimalParseFloat "-122.0").1 } }] ∧
    (handlerSearch (sampleEnv [] [])
        (searchRequest [("lat", "37.0"), ("lon", "-122.0"), ("range", "50")])).searches =
        [{ index := "post",
           query := .geoDistance
            { name := "location",
              distance := "50km",
              lat := (decimalParseFloat "37.0").1,
              lon := (decimalParseFloat "-122.0").1 } }] := by
  obtain ⟨d1, hq1, hd1, -, -, -, hs1, -⟩ := handlerSearch_one_geo_query (sampleEnv [] [])
    (searchRequest [("lat", "37.0"), ("lon", "-122.0")]) (by decide)
  obtain ⟨d2, hq2, -, -, hd2, -, hs2, -⟩ := handlerSearch_one_geo_query (sampleEnv [] [])
    (searchRequest [("lat", "37.0"), ("lon", "-122.0"), ("range", "50")]) (by decide)
  rw [hd1 (by decide)] at hq1
  rw [hd2 "50" (by decide) (by decide)] at hq2
  have h1 := (hs1 rfl).1
  have h2 := (hs2 rfl).1
  rw [hq1] at h1
  rw [hq2] at h2
  exact ⟨h1, h2⟩

/-- C6 as stated fails: when the Elasticsearch client cannot be built, a radius
search sends no query at all and is answered with 500. -/
theorem handlerSearch_client_down_sends_nothing :
    (searchRequest [("lat", "37.0"), ("lon", "-122.0")]).Method = "GET" ∧
    (handlerSearch { sampleEnv [] [] with elastic := downElastic }
      (searchRequest [("lat", "37.0"), ("lon", "-122.0")])).searches = [] ∧
    (handlerSearch { sampleEnv [] [] with elastic := downElastic }
      (searchRequest [("lat", "37.0"), ("lon", "-122.0")])).w.status = 500 := by
  decide

/-- C7, amended: a cluster search (not a preflight) makes exactly one call to
`readFromES`, on the collection `post`, with a range query on the field named by
the `term` parameter as it came (empty when absent), lower bound 0.9 included,
no upper bound.  When the Elasticsearch client is built, `readFromES` sends
exactly one search request, that query on the index `post`, and the response
follows the answer of that request; when the client cannot be built, no search
request is sent and the answer is 500. -/
theorem handlerCluster_one_range_query (env : Env) (r : Request) (hM : r.Method ≠ "OPTIONS") :
    clusterQuery r =
      .range
        { name := Values.Get r.Query "term",
          from_ := some (.num (9 / 10)),
          to_ := none,
          includeLower := true,
          includeUpper := true } ∧
    (r.Query.lookup "term" = none → Values.Get r.Query "term" = "") ∧
    (handlerCluster env r).calls = [.readFromES (clusterQuery r) "post"] ∧
    (env.elastic.NewClient ES_URL true = none →
      (handlerCluster env r).searches = [{ index := "post", query := clusterQuery r }] ∧
      (∀ searchResult, env.elastic.SearchDo "post" (clusterQuery r) = .ok searchResult →
        (handlerCluster env r).exit = .returned ∧
        (handlerCluster env r).w = writePosts corsWriter searchResult "Failed to parse post object") ∧
      (∀ err, env.elastic.SearchDo "post" (clusterQuery r) = .error err →
        (handlerCluster env r).exit = .returned ∧ (handlerCluster env r).w.status = 500)) ∧
    (env.elastic.NewClient ES_URL true ≠ none →
      (handlerCluster env r).searches = [] ∧
      (handlerCluster env r).exit = .returned ∧
      (handlerCluster env r).w.status = 500) := by
  refine ⟨rfl, Values.Get_absent _ _, handlerCluster_calls env r hM, ?_, ?_⟩
  · intro hC
    refine ⟨?_, ?_, ?_⟩
    · rw [handlerCluster_run env r hM]
      cases hs : env.elastic.SearchDo POST_INDEX (clusterQuery r) with
      | error err => rw [readFromES_search_failed _ _ _ err hC hs]; rfl
      | ok sr => rw [readFromES_search_ok _ _ _ sr hC hs]; rfl
    · intro sr hs
      rw [handlerCluster_run env r hM, readFromES_search_ok _ _ POST_INDEX sr hC hs]
      exact ⟨rfl, rfl⟩
    · intro err hs
      rw [handlerCluster_run env r hM, readFromES_search_failed _ _ POST_INDEX err hC hs]
      exact ⟨rfl, rfl⟩
  · intro hC
    obtain ⟨err, hC⟩ := Option.ne_none_iff_exists'.mp hC
    rw [handlerCluster_run env r hM, readFromES_client_down _ _ _ err hC]
    exact ⟨rfl, rfl, rfl⟩

/-- C7, amended, with a term and without one, on an index that is up. -/
theorem handlerCluster_one_range_query_witness :
    (handlerCluster (sampleEnv [] []) (searchRequest [("term", "face")])).searches =
      [{ index := "post",
         query := .range
          { name := "face",
            from_ := some (.num (9 / 10)),
            to_ := none,
            includeLower := true,
            includeUpper := true } }] ∧
    (handlerCluster (sampleEnv [] []) (searchRequest [])).searches =
      [{ index := "post",
         query := .range
          { name := "",
            from_ := some (.num (9 / 10)),
            to_ := none,
            includeLower := true,
            includeUpper := true } }] :=
  ⟨((handlerCluster_one_range_query (sampleEnv [] []) (searchRequest [("term", "face")])
      (by decide)).2.2.2.1 rfl).1,
   ((handlerCluster_one_range_query (sampleEnv [] []) (searchRequest []) (by decide)).2.2.2.1
      rfl).1⟩

/-- C7 as stated fails: when the Elasticsearch client cannot be built, a cluster
search sends no query at all and is answered with 500. -/
theorem handlerCluster_client_down_sends_nothing :
    (searchRequest [("term", "face")]).Method = "GET" ∧
    (handlerCluster { sampleEnv [] [] with elastic := downElastic }
      (searchRequest [("term", "face")])).searches = [] ∧
    (handlerCluster { sampleEnv [] [] with elastic := downElastic }
      (searchRequest [("term", "face")])).w.status = 500 := by
  decide

/-- C8 fails on the code: when the index read succeeds with no hit, or with only
hits that do not decode, `posts` is still the nil slice, which encodes as the
JSON value `null`; the body written, with status 200, is `null`, not an array. -/
theorem search_without_posts_writes_null :
    (sampleElastic []).SearchDo "post"
        (searchQuery (sampleEnv [] []) (searchRequest [("lat", "37.0"), ("lon", "-122.0")])) =
      .ok { Hits := [] } ∧
    getPostFromSearchResult { Hits := [] } = .nil ∧
    getPostFromSearchResult { Hits := [⟨none⟩] } = .nil ∧
    (handlerSearch (sampleEnv [] []) (searchRequest [("lat", "37.0"), ("lon", "-122.0")])).w.body =
      .json .null ∧
    (handlerSearch (sampleEnv [] []) (searchRequest [("lat", "37.0"), ("lon", "-122.0")])).w.status =
      200 ∧
    (handlerCluster (sampleEnv [] [⟨none⟩]) (searchRequest [("term", "face")])).w.body =
      .json .null ∧
    (handlerCluster (sampleEnv [] [⟨none⟩]) (searchRequest [("term", "face")])).w.status = 200 :=
  ⟨rfl, rfl, rfl, rfl, by decide, rfl, by decide⟩

/-- C9, amended: the url of the post held by `handlerPost` is non-empty if and
only if the attachment was present, the upload succeeded and the media link
that `saveToGCS` returned is non-empty; after a successful upload the url is
that media link, which is the `MediaLink` of the attributes of the stored
object; every post passed to `saveToES` comes after a successful upload and has
that media link as url. -/
theorem handlerPost_url_invariant (env : Env) (r : Request) :
    (∀ p, (handlerPost env r).p = some p →
      (p.Url ≠ "" ↔
        ∃ file header, r.FormFile "image" = some (file, header) ∧
          (saveToGCS env.storage file env.uuidNew).2 = none ∧
          (saveToGCS env.storage file env.uuidNew).1 ≠ "")) ∧
    (∀ p file header, (handlerPost env r).p = some p →
      r.FormFile "image" = some (file, header) →
      (saveToGCS env.storage file env.uuidNew).2 = none →
      p.Url = (saveToGCS env.storage file env.uuidNew).1 ∧
      ∃ attrs, env.storage.ObjectAttrs BUCKET_NAME env.uuidNew = .ok attrs ∧
        p.Url = attrs.MediaLink) ∧
    (∀ i index id, Call.saveToES i index id ∈ (handlerPost env r).calls →
      ∃ file header, r.FormFile "image" = some (file, header) ∧
        (saveToGCS env.storage file env.uuidNew).2 = none ∧
        i.Url = (saveToGCS env.storage file env.uuidNew).1) := by
  by_cases hM : r.Method = "OPTIONS"
  · rw [handlerPost_options env r hM]; simp
  cases hU : r.username with
  | none => rw [handlerPost_panic env r hM hU]; simp
  | some u =>
    have hcase : r.FormFile "image" = none ∨
        ∃ file header, r.FormFile "image" = some (file, header) := by
      cases h : r.FormFile "image" with
      | none => exact Or.inl rfl
      | some fh => exact Or.inr ⟨fh.1, fh.2, rfl⟩
    rcases hcase with hF | ⟨file, header, hF⟩
    · rw [handlerPost_missing env r u hM hU hF]
      refine ⟨?_, ?_, ?_⟩
      · intro p hp
        have hp := Option.some.inj hp
        subst hp
        constructor
        · intro h; exact absurd rfl h
        · rintro ⟨file, header, hF', -⟩
          rw [hF] at hF'; exact Option.noConfusion hF'
      · intro p file header _ hF'
        rw [hF] at hF'; exact Option.noConfusion hF'
      · intro i index id hmem; simp at hmem
    · have same : ∀ file' header', r.FormFile "image" = some (file', header') → file' = file := by
        intro file' header' h
        rw [hF] at h
        exact (Prod.mk.inj (Option.some.inj h)).1.symm
      by_cases hS : (saveToGCS env.storage file env.uuidNew).2 = none
      · have hurl : ∀ p : Post, p.Url = (saveToGCS env.storage file env.uuidNew).1 →
            (p.Url ≠ "" ↔
              ∃ file' header', r.FormFile "image" = some (file', header') ∧
                (saveToGCS env.storage file' env.uuidNew).2 = none ∧
                (saveToGCS env.storage file' env.uuidNew).1 ≠ "") ∧
            (∀ file' header', r.FormFile "image" = some (file', header') →
              (saveToGCS env.storage file' env.uuidNew).2 = none →
              p.Url = (saveToGCS env.storage file' env.uuidNew).1 ∧
              ∃ attrs, env.storage.ObjectAttrs BUCKET_NAME env.uuidNew = .ok attrs ∧
                p.Url = attrs.MediaLink) := by
          intro p hp
          constructor
          · constructor
            · intro hne; exact ⟨file, header, hF, hS, hp ▸ hne⟩
            · rintro ⟨file', header', hF', -, hne⟩
              rw [same file' header' hF'] at hne
              rw [hp]; exact hne
          · intro file' header' hF' _
            rw [same file' header' hF']
            obtain ⟨attrs, hattrs, hl⟩ := saveToGCS_link env.storage file env.uuidNew hS
            exact ⟨hp, attrs, hattrs, hp.trans hl⟩
        have hcalls : ∀ (q : Post) (calls : List Call) (i : Post) (index id : String),
            q.Url = (saveToGCS env.storage file env.uuidNew).1 →
            (∀ c ∈ calls, ∀ i index id, c ≠ Call.saveToES i index id) →
            Call.saveToES i index id ∈ (indexRun env q calls).calls →
            ∃ file' header', r.FormFile "image" = some (file', header') ∧
              (saveToGCS env.storage file' env.uuidNew).2 = none ∧
              i.Url = (saveToGCS env.storage file' env.uuidNew).1 := by
          intro q calls i index id hq hno hmem
          rw [indexRun_calls] at hmem
          rcases List.mem_append.mp hmem with h | h
          · exact absurd rfl (hno _ h i index id)
          · simp only [List.mem_singleton, Call.saveToES.injEq] at h
            exact ⟨file, header, hF, hS, h.1 ▸ hq⟩
        by_cases hT : kindOf header.Filename = "image"
        · by_cases hA : (annotate env.vision (objectURI env.uuidNew)).2 = none
          · rw [handlerPost_image env r u file header hM hU hF hS hT hA]
            refine ⟨?_, ?_, ?_⟩
            · intro p hp
              rw [indexRun_p] at hp
              have hp := Option.some.inj hp
              subst hp; exact (hurl _ rfl).1
            · intro p file' header' hp
              rw [indexRun_p] at hp
              have hp := Option.some.inj hp
              subst hp; exact (hurl _ rfl).2 file' header'
            · intro i index id hmem
              exact hcalls _ _ i index id rfl (by simp) hmem
          · rw [handlerPost_annotate_failed env r u file header hM hU hF hS hT hA]
            refine ⟨?_, ?_, ?_⟩
            · intro p hp
              have hp := Option.some.inj hp
              subst hp; exact (hurl _ rfl).1
            · intro p file' header' hp
              have hp := Option.some.inj hp
              subst hp; exact (hurl _ rfl).2 file' header'
            · intro i index id hmem; simp at hmem
        · rw [handlerPost_other env r u file header hM hU hF hS hT]
          refine ⟨?_, ?_, ?_⟩
          · intro p hp
            rw [indexRun_p] at hp
            have hp := Option.some.inj hp
            subst hp; exact (hurl _ rfl).1
          · intro p file' header' hp
            rw [indexRun_p] at hp
            have hp := Option.some.inj hp
            subst hp; exact (hurl _ rfl).2 file' header'
          · intro i index id hmem
            exact hcalls _ _ i index id rfl (by simp) hmem
      · rw [handlerPost_upload_failed env r u file header hM hU hF hS]
        refine ⟨?_, ?_, ?_⟩
        · intro p hp
          have hp := Option.some.inj hp
          subst hp
          constructor
          · intro h; exact absurd rfl h
          · rintro ⟨file', header', hF', hS', -⟩
            rw [same file' header' hF'] at hS'
            exact absurd hS' hS
        · intro p file' header' _ hF' hS'
          rw [same file' header' hF'] at hS'
          exact absurd hS' hS
        · intro i index id hmem; simp at hmem

/-- C9, amended, on the sample storage service: after an upload that succeeds,
and without attachment. -/
theorem handlerPost_url_invariant_witness :
    (∃ p, (handlerPost (sampleEnv [] []) (submission "face.jpg" "37.0" "-122.0")).p = some p ∧
      p.Url =
        "https://storage.googleapis.com/download/storage/v1/b/lusha-bucket/o/6ba7b810-9dad-11d1-80b4-00c04fd430c8?alt=media" ∧
      p.Url ≠ "" ∧
      Call.saveToES p "post" "6ba7b810-9dad-11d1-80b4-00c04fd430c8" ∈
        (handlerPost (sampleEnv [] []) (submission "face.jpg" "37.0" "-122.0")).calls) ∧
    (∃ p, (handlerPost (sampleEnv [] []) bareSubmission).p = some p ∧ p.Url = "") := by
  have h1 := handlerPost_url_invariant (sampleEnv [] []) (submission "face.jpg" "37.0" "-122.0")
  have h2 := handlerPost_url_invariant (sampleEnv [] []) bareSubmission
  refine ⟨⟨_, rfl, ?_, ?_, by decide⟩, ⟨_, rfl, ?_⟩⟩
  · exact (h1.2.1 _ "bytes" { Filename := "face.jpg" } rfl rfl (by decide)).1.trans (by decide)
  · exact (h1.1 _ rfl).mpr ⟨"bytes", { Filename := "face.jpg" }, rfl, by decide, by decide⟩
  · refine Decidable.of_not_not (fun hne => ?_)
    obtain ⟨file, header, hF, -⟩ := (h2.1 _ rfl).mp hne
    exact Option.noConfusion hF

/-- C9 as stated fails: a storage service that stores the object and answers
with an empty media link makes the upload succeed, and the post passed to the
index write, and held at the end, has an empty url; the answer is 200. -/
theorem blank_media_link_is_indexed :
    saveToGCS blankLinkStorage "bytes" "6ba7b810-9dad-11d1-80b4-00c04fd430c8" = ("", none) ∧
    ((handlerPost { sampleEnv [] [] with storage := blankLinkStorage }
        (submission "face.jpg" "37.0" "-122.0")).p.map (fun p => p.Url)) = some "" ∧
    ((handlerPost { sampleEnv [] [] with storage := blankLinkStorage }
        (submission "face.jpg" "37.0" "-122.0")).calls.map
        (fun c => match c with
          | .saveToES i _ _ => some i.Url
          | _ => none)) = [none, none, some ""] ∧
    (handlerPost { sampleEnv [] [] with storage := blankLinkStorage }
        (submission "face.jpg" "37.0" "-122.0")).w.status = 200 := by
  decide

/-- C10, amended: the coordinates of the post and of the geo query are the
values that the numeric parse returned, its error dropped.  Under the contract
of `strconv.ParseFloat`, a missing parameter or a syntax error gives 0, a range
error gives an infinity.  Neither handler looks at the error: the run is the
same when the errors are erased. -/
theorem coordinates_follow_parse (env : Env) (r : Request)
    (hC : ParseFloatContract env.ParseFloat) (hM : r.Method ≠ "OPTIONS") :
    (r.username ≠ none →
      ∃ p, (handlerPost env r).p = some p ∧
        p.Location.Lat = (env.ParseFloat (r.FormValue "lat")).1 ∧
        p.Location.Lon = (env.ParseFloat (r.FormValue "lon")).1 ∧
        ((r.Form.lookup "lat" = none ∨ (env.ParseFloat (r.FormValue "lat")).2 = some .syntaxErr) →
          p.Location.Lat = .num 0) ∧
        ((r.Form.lookup "lon" = none ∨ (env.ParseFloat (r.FormValue "lon")).2 = some .syntaxErr) →
          p.Location.Lon = .num 0) ∧
        ((env.ParseFloat (r.FormValue "lat")).2 = some .rangeErr →
          p.Location.Lat = .posInf ∨ p.Location.Lat = .negInf) ∧
        ((env.ParseFloat (r.FormValue "lon")).2 = some .rangeErr →
          p.Location.Lon = .posInf ∨ p.Location.Lon = .negInf)) ∧
    (∃ q, (handlerSearch env r).calls = [.readFromES (.geoDistance q) "post"] ∧
        q.lat = (env.ParseFloat (Values.Get r.Query "lat")).1 ∧
        q.lon = (env.ParseFloat (Values.Get r.Query "lon")).1 ∧
        ((r.Query.lookup "lat" = none ∨
            (env.ParseFloat (Values.Get r.Query "lat")).2 = some .syntaxErr) → q.lat = .num 0) ∧
        ((r.Query.lookup "lon" = none ∨
            (env.ParseFloat (Values.Get r.Query "lon")).2 = some .syntaxErr) → q.lon = .num 0) ∧
        ((env.ParseFloat (Values.Get r.Query "lat")).2 = some .rangeErr →
          q.lat = .posInf ∨ q.lat = .negInf) ∧
        ((env.ParseFloat (Values.Get r.Query "lon")).2 = some .rangeErr →
          q.lon = .posInf ∨ q.lon = .negInf)) ∧
    handlerPost env.eraseParseErrors r = handlerPost env r ∧
    handlerSearch env.eraseParseErrors r = handlerSearch env r := by
  obtain ⟨hEmpty, hSyn, hRange⟩ := hC
  have zero : ∀ (v : Values) (key : String),
      (v.lookup key = none ∨ (env.ParseFloat (Values.Get v key)).2 = some .syntaxErr) →
      (env.ParseFloat (Values.Get v key)).1 = .num 0 := by
    intro v key h
    rcases h with h | h
    · rw [Values.Get_absent v key h]; exact hSyn "" hEmpty
    · exact hSyn _ h
  refine ⟨?_, ?_, rfl, rfl⟩
  · intro hU
    obtain ⟨p, hp⟩ := handlerPost_holds_post env r hM hU
    have hloc := handlerPost_held_location env r p hp
    refine ⟨p, hp, by rw [hloc], by rw [hloc], ?_, ?_, ?_, ?_⟩
    · intro h; rw [hloc]; exact zero r.Form "lat" h
    · intro h; rw [hloc]; exact zero r.Form "lon" h
    · intro h; rw [hloc]; exact hRange _ h
    · intro h; rw [hloc]; exact hRange _ h
  · refine ⟨_, handlerSearch_calls env r hM, rfl, rfl, ?_, ?_, ?_, ?_⟩
    · exact zero r.Query "lat"
    · exact zero r.Query "lon"
    · exact hRange _
    · exact hRange _

/-- C10, amended, on a latitude that is not a number and a missing longitude. -/
theorem coordinates_follow_parse_witness :
    ((sampleEnv [] []).ParseFloat "north").2 = some .syntaxErr ∧
    (∃ p, (handlerPost (sampleEnv [] []) (submission "face.jpg" "north" "-122.0")).p = some p ∧
      p.Location.Lat = .num 0) ∧
    (∃ q, (handlerSearch (sampleEnv [] []) (searchRequest [("lat", "north")])).calls =
        [.readFromES (.geoDistance q) "post"] ∧ q.lat = .num 0 ∧ q.lon = .num 0) := by
  have h1 := (coordinates_follow_parse (sampleEnv [] []) (submission "face.jpg" "north" "-122.0")
    decimalParseFloat_contract (by decide)).1 (by decide)
  have h2 := (coordinates_follow_parse (sampleEnv [] []) (searchRequest [("lat", "north")])
    decimalParseFloat_contract (by decide)).2.1
  obtain ⟨p, hp, -, -, hlat, -⟩ := h1
  obtain ⟨q, hq, -, -, hqlat, hqlon, -⟩ := h2
  exact ⟨by decide, ⟨p, hp, hlat (Or.inr (by decide))⟩,
    ⟨q, hq, hqlat (Or.inr (by decide)), hqlon (Or.inl (by decide))⟩⟩

set_option maxRecDepth 8000 in
/-- C10 as stated fails: the latitude `1e309` makes the numeric parse report a
range error, and the coordinate of the post is plus infinity, not 0; in the
search handler `-1e309` gives minus infinity. -/
theorem range_error_keeps_infinity :
    ((sampleEnv [] []).ParseFloat "1e309").2 = some .rangeErr ∧
    ((handlerPost (sampleEnv [] []) (submission "face.jpg" "1e309" "")).p.map
        (fun p => p.Location.Lat)) = some .posInf ∧
    (handlerSearch (sampleEnv [] []) (searchRequest [("lat", "-1e309")])).calls =
      [.readFromES
        (.geoDistance { name := "location", distance := "200km", lat := .negInf, lon := .num 0 })
        "post"] ∧
    ((handlerPost (sampleEnv [] []) (submission "face.jpg" "1e309" "")).p.map
        (fun p => decide (p.Location.Lat = .num 0))) = some false := by
  decide

end Around
